import Mathlib

set_option maxRecDepth 4000

/-!
Verification of the remote deployment orchestration engine of the C2-API
repository (backend/services/guided_deployment_service.py,
backend/services/ssh_manager.py, backend/services/workflow_engine.py),
as a shallow embedding in Lean 4.

Python dicts are modelled as association lists of string keys in insertion
order; Python values appearing in the relevant code are `None`, booleans,
integers and strings.  Subscript access `d[k]` raises `KeyError` on a
missing key and is modelled in `Except`; `d.get(k)` defaults to `None`.
External collaborators (the SSH transport, the remote host, the database
clock) are modelled as explicit oracles passed to the embedded functions.
-/

namespace C2API

/-- A Python value occurring in the deployment service's dicts. -/
inductive PyVal where
  | vNone : PyVal
  | vBool : Bool → PyVal
  | vInt : Int → PyVal
  | vStr : String → PyVal
  deriving DecidableEq, Repr

/-- A Python dict with string keys, kept in insertion order. -/
abbrev PyDict := List (String × PyVal)

/-- The value bound to `key`, if the key is present. -/
def dictFind : PyDict → String → Option PyVal
  | [], _ => none
  | (k, v) :: rest, key => if k = key then some v else dictFind rest key

/-- Python subscript access `d[key]`: raises `KeyError` when the key is absent. -/
def pyGet (d : PyDict) (key : String) : Except String PyVal :=
  match dictFind d key with
  | some v => .ok v
  | none => .error ("KeyError: " ++ key)

/-- Python `d.get(key)`: `None` when the key is absent. -/
def pyGetD (d : PyDict) (key : String) : PyVal :=
  (dictFind d key).getD .vNone

/-- Python truthiness of the modelled values. -/
def truthy : PyVal → Bool
  | .vNone => false
  | .vBool b => b
  | .vInt n => n != 0
  | .vStr s => s != ""

/-- The keys of a dict, in insertion order. -/
def dictKeys (d : PyDict) : List String := d.map Prod.fst

/-- Python `str()` on the modelled values (only ever applied to strings in
the verified paths). -/
def pyStr : PyVal → String
  | .vNone => "None"
  | .vBool b => if b then "True" else "False"
  | .vInt n => toString n
  | .vStr s => s

/-! ## Status vocabularies (backend/models.py) -/

/-- `DeploymentStepStatus` of models.py. -/
inductive DeploymentStepStatus where
  | pending | running | completed | failed | skipped
  deriving DecidableEq, Repr

/-- `DeploymentConnectionStatus` of models.py. -/
inductive DeploymentConnectionStatus where
  | disconnected | connecting | connected | error
  deriving DecidableEq, Repr

/-! ## The deployment service object

`GuidedDeploymentService.__init__` installs a fixed `default_project_structure`
dict; the methods verified here never read it, so the service state keeps only
the lazily created `_sessions` dict of the in-memory code path (task id →
session dict).  `MemStep`/`MemSession` mirror the dict shapes built at
guided_deployment_service.py lines 686-717. -/

/-- A `Task` row, reduced to the attributes the deployment service reads. -/
structure Task where
  taskId : Int
  generated_code : String
  deriving DecidableEq, Repr

/-- One step dict of the in-memory session (guided_deployment_service.py
lines 700-714): exactly these keys are created, several bound to `None`. -/
structure MemStep where
  memId : Int
  step_number : PyVal
  step_name : PyVal
  step_description : PyVal
  command : PyVal
  expected_output : PyVal
  actual_output : PyVal
  status : String
  error_message : PyVal
  file_path : PyVal
  file_content : PyVal
  completed_at : PyVal
  created_at : String
  deriving DecidableEq, Repr

/-- The in-memory session dict (guided_deployment_service.py lines 686-717),
plus the `connection_id` key that `update_connection_status` may add. -/
structure MemSession where
  memId : Int
  task_id : Int
  user_id : Int
  server_host : PyVal
  server_port : PyVal
  server_username : PyVal
  connection_status : String
  current_step : Int
  deployment_path : PyVal
  git_repo_url : PyVal
  steps : List MemStep
  connection_id : Option String
  deriving DecidableEq, Repr

/-- The mutable state of the `GuidedDeploymentService` singleton: the
`_sessions` dict of the in-memory code path (absent ≈ empty). -/
structure GuidedDeploymentService where
  sessions : List (Int × MemSession)
  deriving DecidableEq, Repr

/-- A step dict of the fixed 37-step plan: keys `step_number`, `step_name`
and `command` only, exactly as appended by `generate_deployment_steps`. -/
def mkStep (n : Int) (name cmd : String) : PyDict :=
  [("step_number", .vInt n), ("step_name", .vStr name), ("command", .vStr cmd)]

/-- `GuidedDeploymentService.generate_deployment_steps` (lines 163-437):
the fixed 37-step deployment guide.  The body reads neither `self`, nor
`task`, nor `git_repo_url`; only `deployment_path` is interpolated into the
commands of steps 1 and 29. -/
def generate_deployment_steps (self : GuidedDeploymentService) (task : Task)
    (deployment_path : String) (git_repo_url : String) : List PyDict :=
  [ mkStep 1 "进入项目目录" ("cd " ++ deployment_path),
    mkStep 2 "切换到主分支" "git switch main",
    mkStep 3 "获取最新的代码" "git pull origin main",
    mkStep 4 "创建新的分支" "git switch -c feature/your-new-api",
    mkStep 5 "打开文件写入" "nano app/models/your_model.py",
    mkStep 6 "写入代码（这个是直接复制粘贴之前AI写的内容）" "写入代码（这个是直接复制粘贴之前AI写的内容）",
    mkStep 7 "保存代码 按下 Ctrl + O（英文O），然后按 Enter 键确认" "Ctrl + O（英文O），然后按 Enter 键确认",
    mkStep 8 "退出文件编辑 按下 Ctrl + X 返回到命令行" "Ctrl + X 返回到命令行",
    mkStep 9 "打开文件写入" "nano app/schemas/your_schema.py",
    mkStep 10 "写入代码（这个是直接复制粘贴之前AI写的内容）" "写入代码（这个是直接复制粘贴之前AI写的内容）",
    mkStep 11 "保存代码 按下 Ctrl + O（英文O），然后按 Enter 键确认" "Ctrl + O（英文O），然后按 Enter 键确认",
    mkStep 12 "退出文件编辑 按下 Ctrl + X 返回到命令行" "Ctrl + X 返回到命令行",
    mkStep 13 "打开文件写入" "nano app/services/your_service.py",
    mkStep 14 "写入代码（这个是直接复制粘贴之前AI写的内容）" "写入代码（这个是直接复制粘贴之前AI写的内容）",
    mkStep 15 "保存代码 按下 Ctrl + O（英文O），然后按 Enter 键确认" "Ctrl + O（英文O），然后按 Enter 键确认",
    mkStep 16 "退出文件编辑 按下 Ctrl + X 返回到命令行" "Ctrl + X 返回到命令行",
    mkStep 17 "打开文件写入" "nano app/api/v1/your_api.py",
    mkStep 18 "写入代码（这个是直接复制粘贴之前AI写的内容）" "写入代码（这个是直接复制粘贴之前AI写的内容）",
    mkStep 19 "保存代码 按下 Ctrl + O（英文O），然后按 Enter 键确认" "Ctrl + O（英文O），然后按 Enter 键确认",
    mkStep 20 "退出文件编辑 按下 Ctrl + X 返回到命令行" "Ctrl + X 返回到命令行",
    mkStep 21 "打开文件写入（写入到最后）" "nano app/api/v1/__init__.py",
    mkStep 22 "保存代码 按下 Ctrl + O（英文O），然后按 Enter 键确认" "Ctrl + O（英文O），然后按 Enter 键确认",
    mkStep 23 "退出文件编辑 按下 Ctrl + X 返回到命令行" "Ctrl + X 返回到命令行",
    mkStep 24 "退出文件编辑（键盘快捷键 ctrl+）" "退出文件编辑（键盘快捷键 ctrl+）",
    mkStep 25 "打开文件写入（写入到最后）" "nano app/main.py",
    mkStep 26 "写入代码（这个是直接复制粘贴之前AI写的内容）" "写入代码（这个是直接复制粘贴之前AI写的内容）",
    mkStep 27 "保存代码 按下 Ctrl + O（英文O），然后按 Enter 键确认" "Ctrl + O（英文O），然后按 Enter 键确认",
    mkStep 28 "退出文件编辑 按下 Ctrl + X 返回到命令行" "Ctrl + X 返回到命令行",
    mkStep 29 "进入到根目录" ("cd " ++ deployment_path),
    mkStep 30 "创建虚拟环境" "python3 -m venv venv",
    mkStep 31 "激活虚拟环境" "source venv/bin/activate",
    mkStep 32 "启动服务" "uvicorn app.main:app --reload --host 0.0.0.0 --port 8000",
    mkStep 33 "是否报错（是，把报错信息发给ai，根据ai的提示进行修改；否，点击下一步）" "是否报错（是，把报错信息发给ai，根据ai的提示进行修改；否，点击下一步）",
    mkStep 34 "代码打包" "git add .",
    mkStep 35 "代码备注" "git commit -m \"本次修改的内容，可用中文描述\"",
    mkStep 36 "代码推送" "git push -u origin feature/your-new-api",
    mkStep 37 "部署完成" "部署完成" ]

/-- A plan step that materializes a file: both execution paths guard the
upload with `if step.file_content and step.file_path` (lines 624 and 787),
i.e. both values present and truthy. -/
def isFileWriteStep (d : PyDict) : Bool :=
  truthy (pyGetD d "file_content") && truthy (pyGetD d "file_path")

/-- Number of file-write steps in a plan. -/
def fileWriteStepCount (plan : List PyDict) : Nat :=
  (plan.filter isFileWriteStep).length

/-! ## Persisted rows and the transactional database

The SQLAlchemy session is modelled with a committed store plus a pending
buffer: `db.add` appends to the buffer, `db.commit` flushes it, and
`db.rollback` discards it. -/

/-- A `deployment_sessions` row (models.py lines 160-182), reduced to the
columns the service reads. -/
structure DSessionRow where
  rowId : Int
  task_id : Int
  user_id : Int
  server_host : String
  server_port : Int
  server_username : String
  connection_status : DeploymentConnectionStatus
  current_step : Int
  deployment_path : String
  git_repo_url : String
  deriving DecidableEq, Repr

/-- A `deployment_steps` row (models.py lines 184-205).  Columns filled from
the generator's dicts keep the `PyVal` they were assigned. -/
structure DStepRow where
  rowId : Int
  session_id : Int
  step_number : PyVal
  step_name : PyVal
  step_description : PyVal
  command : PyVal
  expected_output : PyVal
  file_path : PyVal
  file_content : PyVal
  actual_output : PyVal
  status : DeploymentStepStatus
  error_message : PyVal
  completed_at : Option Nat
  deriving DecidableEq, Repr

/-- The relational store for the guided-deployment entities, with the
SQLAlchemy pending buffer for added-but-uncommitted step rows. -/
structure DepDb where
  sessions : List DSessionRow
  steps : List DStepRow
  pendingSteps : List DStepRow
  deriving DecidableEq, Repr

/-- `db.add(step)`: stage a row in the pending buffer. -/
def dbAddStep (db : DepDb) (r : DStepRow) : DepDb :=
  { db with pendingSteps := db.pendingSteps ++ [r] }

/-- `db.commit()`: flush pending rows to the committed store. -/
def dbCommit (db : DepDb) : DepDb :=
  { db with steps := db.steps ++ db.pendingSteps, pendingSteps := [] }

/-- `db.rollback()`: discard pending rows. -/
def dbRollback (db : DepDb) : DepDb :=
  { db with pendingSteps := [] }

/-- One iteration of the row-construction loop of
`initialize_deployment_steps` (lines 549-560): the `DeploymentStep(...)`
keyword arguments subscript the step dict in source order, so a missing key
raises `KeyError` before any row is built. -/
def buildDStepRow (sid : Int) (sd : PyDict) : Except String DStepRow := do
  let sn ← pyGet sd "step_number"
  let nm ← pyGet sd "step_name"
  let ds ← pyGet sd "step_description"
  let cm ← pyGet sd "command"
  let eo ← pyGet sd "expected_output"
  pure { rowId := 0, session_id := sid, step_number := sn, step_name := nm,
         step_description := ds, command := cm, expected_output := eo,
         file_path := pyGetD sd "file_path", file_content := pyGetD sd "file_content",
         actual_output := .vNone, status := .pending, error_message := .vNone,
         completed_at := none }

/-- The `for step_data in steps_data: ... db.add(step)` loop; an exception
mid-loop leaves the earlier adds in the pending buffer. -/
def addStepRows : DepDb → Int → List PyDict → Except (String × DepDb) DepDb
  | db, _, [] => .ok db
  | db, sid, sd :: rest =>
    match buildDStepRow sid sd with
    | .error e => .error (e, db)
    | .ok r => addStepRows (dbAddStep db r) sid rest

/-- `GuidedDeploymentService.initialize_deployment_steps` (lines 533-569):
generates the step plan, stages one `DeploymentStep` row per step dict and
commits; any exception rolls the transaction back and returns `False`. -/
def init_deployment_steps (self : GuidedDeploymentService) (db : DepDb)
    (session : DSessionRow) (task : Task) : Bool × DepDb :=
  let steps_data :=
    generate_deployment_steps self task session.deployment_path session.git_repo_url
  match addStepRows db session.rowId steps_data with
  | .ok db2 => (true, dbCommit db2)
  | .error (_, db2) => (false, dbRollback db2)

/-! ## The execution driver (database-backed path)

The SSH manager's `upload_file` and `execute_command` are remote-world
operations; their outcomes are an oracle `Remote`.  The calls actually
issued are recorded as a trace, so "the command is never executed" is a
statement about the trace. -/

/-- Outcomes of the SSH-manager operations as seen by the execution driver:
`uploadResult connId content path` is the `(success, error)` pair returned
by `upload_file`, and `execResult connId command` the
`(success, stdout, stderr)` triple returned by `execute_command`. -/
structure Remote where
  uploadResult : String → String → String → Bool × String
  execResult : String → String → Bool × String × String

/-- A remote call issued during step execution. -/
inductive RemoteEvent where
  | upload (connId content path : String)
  | exec (connId command : String)
  deriving DecidableEq, Repr

/-- The command phase of `execute_deployment_step` (lines 637-660): run the
step's command if it is truthy, else complete the step as a pure file
creation. -/
def execute_deployment_step_cmd (remote : Remote) (step : DStepRow)
    (connection_id : String) (now : Nat) (evs : List RemoteEvent) :
    (Bool × String × String) × DStepRow × List RemoteEvent :=
  if truthy step.command then
    let r := remote.execResult connection_id (pyStr step.command)
    let evs := evs ++ [RemoteEvent.exec connection_id (pyStr step.command)]
    let step := { step with actual_output := .vStr r.2.1 }
    if r.1 then
      ((true, r.2.1, r.2.2),
       { step with status := .completed, completed_at := some now }, evs)
    else
      ((false, r.2.1, r.2.2),
       { step with status := .failed, error_message := .vStr r.2.2 }, evs)
  else
    ((true, "文件创建完成", ""),
     { step with status := .completed, completed_at := some now }, evs)

/-- `GuidedDeploymentService.execute_deployment_step` (lines 611-667), the
database-backed path: mark the step running; if the step carries a truthy
file payload, upload it first and short-circuit to `failed` when the upload
fails; otherwise run the command phase.  `db.execute("SELECT NOW()")` is the
`now` argument. -/
def execute_deployment_step (remote : Remote) (step : DStepRow)
    (connection_id : String) (now : Nat) :
    (Bool × String × String) × DStepRow × List RemoteEvent :=
  let step := { step with status := .running }
  if truthy step.file_content && truthy step.file_path then
    let up := remote.uploadResult connection_id (pyStr step.file_content) (pyStr step.file_path)
    let evs := [RemoteEvent.upload connection_id (pyStr step.file_content) (pyStr step.file_path)]
    if !up.1 then
      ((false, "", up.2),
       { step with status := .failed, error_message := .vStr up.2 }, evs)
    else
      execute_deployment_step_cmd remote step connection_id now evs
  else
    execute_deployment_step_cmd remote step connection_id now []

/-- A step bound to its owning session row.  The source function receives
only the step object and the db handle and never names the session, so the
session row rides along untouched. -/
structure DeployState where
  session : DSessionRow
  step : DStepRow
  deriving DecidableEq, Repr

/-- `execute_deployment_step` acting on a step together with its owning
session row. -/
def execute_deployment_step_st (remote : Remote) (st : DeployState)
    (connection_id : String) (now : Nat) :
    (Bool × String × String) × DeployState × List RemoteEvent :=
  let r := execute_deployment_step remote st.step connection_id now
  (r.1, { st with step := r.2.1 }, r.2.2)

/-! ## The in-memory service path

`GuidedDeploymentService` defines `create_deployment_session` twice in one
class body (lines 491 and 669); in Python the later `def` rebinds the class
attribute, so the second, in-memory definition is the one every attribute
lookup resolves to, and the database-backed first definition (with its
existing-session guard) is unreachable.  The definitions below embed the
effective, second definition and its companion `execute_step`. -/

/-- Python `d.get(key, default)`. -/
def pyGetDef (d : PyDict) (key : String) (dflt : PyVal) : PyVal :=
  (dictFind d key).getD dflt

/-- Truthiness of the optional `user_input`/config dict arguments: `None`
and the empty dict are falsy. -/
def optDictTruthy : Option PyDict → Bool
  | none => false
  | some d => !d.isEmpty

/-- Python truthiness of a 2-tuple: a non-empty tuple is always truthy.
`execute_step` (line 788) binds the whole `(success, error)` pair returned
by `upload_file` to the name `success`, so its `if not success:` test is a
truthiness test on this pair and never fires. -/
def pyPairTruthy : Bool × String → Bool := fun _ => true

/-- One step entry of the in-memory session (lines 700-714): the dict
comprehension subscripts the generator dict with `step['step_description']`
and `step['expected_output']`, keys the 37-step plan never defines, so the
construction raises `KeyError`. -/
def buildMemStep (i : Nat) (step : PyDict) : Except String MemStep := do
  let sn ← pyGet step "step_number"
  let nm ← pyGet step "step_name"
  let ds ← pyGet step "step_description"
  let cm ← pyGet step "command"
  let eo ← pyGet step "expected_output"
  pure { memId := (i : Int) + 1, step_number := sn, step_name := nm,
         step_description := ds, command := cm, expected_output := eo,
         actual_output := .vNone, status := "pending", error_message := .vNone,
         file_path := pyGetD step "file_path", file_content := pyGetD step "file_content",
         completed_at := .vNone, created_at := "2024-01-01T00:00:00" }

/-- The `for i, step in enumerate(steps_data)` comprehension building the
in-memory steps. -/
def buildMemSteps : Nat → List PyDict → Except String (List MemStep)
  | _, [] => .ok []
  | i, sd :: rest =>
    match buildMemStep i sd with
    | .error e => .error e
    | .ok s =>
      match buildMemSteps (i + 1) rest with
      | .error e => .error e
      | .ok ss => .ok (s :: ss)

/-- Replace the value bound to a key in a Python dict, appending when the
key is absent (dict assignment `d[k] = v`). -/
def assocSet {α : Type} [BEq α] {β : Type} : List (α × β) → α → β → List (α × β)
  | [], k, v => [(k, v)]
  | (k0, v0) :: rest, k, v =>
    if k0 == k then (k, v) :: rest else (k0, v0) :: assocSet rest k v

/-- First value bound to a key in an association list. -/
def assocFind {α : Type} [BEq α] {β : Type} : List (α × β) → α → Option β
  | [], _ => none
  | (k0, v0) :: rest, k => if k0 == k then some v0 else assocFind rest k

/-- The try-block of the effective `create_deployment_session`
(lines 677-717), evaluated in Python order: the default argument of
`server_config.get('deployment_path', ...)` subscripts
`server_config["username"]`; the session dict literal then subscripts
`server_config['host']` and `['username']`, and its `"steps"` comprehension
subscripts each generator dict's `step_description`, which always raises
`KeyError`. -/
def createMemBody (self : GuidedDeploymentService) (task_id user_id : Int)
    (server_config : PyDict) (generated_code : String) : Except String MemSession :=
  match pyGet server_config "username" with
  | .error e => .error e
  | .ok uname =>
    let dpath := pyGetDef server_config "deployment_path"
      (.vStr ("/home/" ++ pyStr uname ++ "/api_projects"))
    let grul := pyGetDef server_config "git_repo_url" (.vStr "")
    let steps_data :=
      generate_deployment_steps self ⟨task_id, generated_code⟩ (pyStr dpath) (pyStr grul)
    match pyGet server_config "host" with
    | .error e => .error e
    | .ok host =>
      let port := pyGetDef server_config "port" (.vInt 22)
      match pyGet server_config "username" with
      | .error e => .error e
      | .ok uname2 =>
        match buildMemSteps 0 steps_data with
        | .error e => .error e
        | .ok steps =>
          .ok { memId := task_id, task_id := task_id, user_id := user_id,
                server_host := host, server_port := port, server_username := uname2,
                connection_status := "disconnected", current_step := 1,
                deployment_path := pyGetD server_config "deployment_path",
                git_repo_url := pyGetD server_config "git_repo_url",
                steps := steps, connection_id := none }

/-- The effective `create_deployment_session` (lines 669-729, the second
definition, which shadows the database-backed first definition at line 491):
on success it would store the session dict in `self._sessions[task_id]`; any
exception is logged and re-raised (`raise e`) with the service state
untouched. -/
def create_deployment_session_mem (self : GuidedDeploymentService)
    (task_id user_id : Int) (server_config : PyDict) (generated_code : String) :
    Except String MemSession × GuidedDeploymentService :=
  match createMemBody self task_id user_id server_config generated_code with
  | .ok session =>
    (.ok session, { self with sessions := assocSet self.sessions task_id session })
  | .error e => (.error e, self)

/-- The existing-session filter of the shadowed first
`create_deployment_session` (lines 501-504), applied to the in-memory store:
a session for this task whose connection status is not `disconnected`. -/
def hasActiveSession (self : GuidedDeploymentService) (task_id : Int) : Bool :=
  self.sessions.any (fun s => s.1 == task_id && s.2.connection_status != "disconnected")

/-- Replace the step with the same `id` in a session's step list (dict
mutation through the shared reference). -/
def replaceMemStep : List MemStep → MemStep → List MemStep
  | [], _ => []
  | s :: rest, s2 => if s.memId == s2.memId then s2 :: rest else s :: replaceMemStep rest s2

/-- Write a mutated step back into its session and the session store. -/
def storeMemStep (self : GuidedDeploymentService) (task_id : Int)
    (session : MemSession) (step : MemStep) : GuidedDeploymentService :=
  let session2 : MemSession := { session with steps := replaceMemStep session.steps step }
  { self with sessions := assocSet self.sessions task_id session2 }

/-- The command phase of the in-memory `execute_step` (lines 802-834). -/
def execute_step_mem_cmd (remote : Remote) (self : GuidedDeploymentService)
    (task_id : Int) (session : MemSession) (step : MemStep)
    (connection_id : String) (evs : List RemoteEvent) :
    PyDict × GuidedDeploymentService × List RemoteEvent :=
  if truthy step.command then
    let r := remote.execResult connection_id (pyStr step.command)
    let evs := evs ++ [RemoteEvent.exec connection_id (pyStr step.command)]
    let step := { step with actual_output := .vStr r.2.1 }
    if r.1 then
      let step := { step with status := "completed",
                              completed_at := .vStr "2024-01-01T00:00:00" }
      ([("success", .vBool true), ("message", .vStr "步骤执行成功"),
        ("stdout", .vStr r.2.1)],
       storeMemStep self task_id session step, evs)
    else
      let step := { step with status := "failed", error_message := .vStr r.2.2 }
      ([("success", .vBool false), ("message", .vStr "命令执行失败"),
        ("stderr", .vStr r.2.2)],
       storeMemStep self task_id session step, evs)
  else
    let step := { step with status := "completed",
                            completed_at := .vStr "2024-01-01T00:00:00" }
    ([("success", .vBool true), ("message", .vStr "文件创建完成")],
     storeMemStep self task_id session step, evs)

/-- The in-memory `execute_step` (lines 755-841): look the session and step
up, mark the step running, then attempt the file upload when the step's
`file_content` and `file_path` are truthy.  The upload result pair is bound
whole to `success`, so the `if not success:` short-circuit (lines 794-800)
is dead code and execution always proceeds to the command phase. -/
def execute_step_mem (remote : Remote) (self : GuidedDeploymentService)
    (task_id step_id : Int) (connection_id : String) :
    PyDict × GuidedDeploymentService × List RemoteEvent :=
  match assocFind self.sessions task_id with
  | none => ([("success", .vBool false), ("message", .vStr "部署会话不存在")], self, [])
  | some session =>
    match session.steps.find? (fun s => s.memId == step_id) with
    | none => ([("success", .vBool false), ("message", .vStr "步骤不存在")], self, [])
    | some step =>
      let step := { step with status := "running" }
      if truthy step.file_content && truthy step.file_path then
        let success :=
          remote.uploadResult connection_id (pyStr step.file_content) (pyStr step.file_path)
        let evs := [RemoteEvent.upload connection_id (pyStr step.file_content) (pyStr step.file_path)]
        if !pyPairTruthy success then
          -- dead branch: a 2-tuple is always truthy
          let step := { step with status := "failed", error_message := .vStr "文件上传失败" }
          ([("success", .vBool false), ("message", .vStr "文件上传失败")],
           storeMemStep self task_id session step, evs)
        else
          execute_step_mem_cmd remote self task_id session step connection_id evs
      else
        execute_step_mem_cmd remote self task_id session step connection_id []

/-! ## The SSH manager (backend/services/ssh_manager.py)

The paramiko transport and the remote host are external; their behaviour is
an `SSHWorld` oracle.  Transport handles are tracked explicitly (handle id →
still open) so that closing — and failing to close — a replaced transport
is observable. -/

/-- Outcomes of the external SSH world: `connectResult` is `none` when
`ssh_client.connect` succeeds and otherwise the error message produced by
the corresponding `except` branch of `_create_connection_sync`
(authentication / SSH / generic failure); `testErr` is the stderr of the
liveness test `echo "Connection test"`. -/
structure SSHWorld where
  connectResult : String → Nat → String → Option String
  testErr : String → Nat → String → String
  keyParse : String → Option String

/-- One entry of `self.connections` (ssh_manager.py lines 86-95). -/
structure ConnEntry where
  client : Nat
  host : String
  port : Nat
  username : String
  created_at : Nat
  last_used : Nat
  deriving DecidableEq, Repr

/-- The mutable state of the `SSHManager` singleton: the connection dict
plus the set of transport handles ever created (handle id → still open). -/
structure ManagerState where
  connections : List (String × ConnEntry)
  clients : List (Nat × Bool)
  nextClient : Nat
  deriving DecidableEq, Repr

/-- `SSHManager._generate_connection_id`. -/
def generate_connection_id (host : String) (port : Nat) (username : String) : String :=
  username ++ "@" ++ host ++ ":" ++ toString port

/-- Truthiness of an optional string argument (`if password:` is false for
both `None` and the empty string). -/
def optStrTruthy : Option String → Bool
  | none => false
  | some s => s != ""

/-- `SSHManager._create_connection_sync` (lines 25-105): resolve the
authentication material in source order (`password`, then `key_path`, then
`key_content`, else a caller error), connect, run the liveness test — a
non-empty test stderr closes the client and fails — and finally register
the connection under `username@host:port`.  The dict assignment at line 88
replaces any previous entry for the key, but nothing closes the previous
entry's transport. -/
def create_connection_sync (w : SSHWorld) (st : ManagerState)
    (host : String) (port : Nat) (username : String)
    (password key_path key_content : Option String) (now : Nat) :
    (Bool × String × Option String) × ManagerState :=
  let connection_id := generate_connection_id host port username
  let connectPhase : ManagerState → (Bool × String × Option String) × ManagerState :=
    fun st =>
      match w.connectResult host port username with
      | some msg => ((false, "", some msg), st)
      | none =>
        -- a live transport now exists for the freshly allocated client
        let clientId := st.nextClient
        let st := { st with clients := (clientId, true) :: st.clients,
                            nextClient := clientId + 1 }
        let err := w.testErr host port username
        if err != "" then
          -- ssh_client.close()
          ((false, "", some ("连接测试失败: " ++ err)),
           { st with clients := assocSet st.clients clientId false })
        else
          let entry : ConnEntry := ⟨clientId, host, port, username, now, now⟩
          ((true, connection_id, none),
           { st with connections := assocSet st.connections connection_id entry })
  if optStrTruthy password then connectPhase st
  else if optStrTruthy key_path then connectPhase st
  else if optStrTruthy key_content then
    match w.keyParse (key_content.getD "") with
    | some msg => ((false, "", some msg), st)
    | none => connectPhase st
  else ((false, "", some "请提供密码或SSH密钥"), st)

/-- Is the transport handle still open? -/
def clientOpen (st : ManagerState) (h : Nat) : Option Bool :=
  assocFind st.clients h

/-! ### `upload_file` and the SFTP collaborator

The remote filesystem reached through SFTP is modelled as a set of
directories plus a path → content map. -/

/-- The remote host's filesystem as seen through SFTP. -/
structure RemoteFS where
  dirs : List String
  files : List (String × String)
  deriving DecidableEq, Repr

/-- The public method names of `paramiko.sftp_client.SFTPClient`, the object
returned by `SSHClient.open_sftp()`.  It provides `mkdir` (one level) but no
`makedirs` — recursive directory creation is a pysftp extension — so the
attribute lookup `sftp.makedirs` at ssh_manager.py line 198 raises
`AttributeError`. -/
def sftpClientMethods : List String :=
  ["chdir", "chmod", "chown", "close", "file", "get", "getcwd", "getfo",
   "listdir", "listdir_attr", "listdir_iter", "lstat", "mkdir", "normalize",
   "open", "posix_rename", "put", "putfo", "readlink", "remove", "rename",
   "rmdir", "stat", "symlink", "truncate", "unlink", "utime"]

/-- Python attribute lookup on the SFTP client. -/
def sftpGetattr (name : String) : Except String Unit :=
  if sftpClientMethods.contains name then .ok ()
  else .error ("AttributeError: SFTPClient object has no attribute " ++ name)

/-- What a recursive `makedirs(d)` would do: create `d` and every ancestor. -/
def dirPrefixes (d : String) : List String :=
  let parts := d.splitOn "/"
  (List.range parts.length).map (fun i => String.intercalate "/" (parts.take (i + 1)))

/-- Recursive directory creation on the modelled filesystem (the behaviour
the source expects from `sftp.makedirs`). -/
def fsMakedirs (fs : RemoteFS) (d : String) : RemoteFS :=
  { fs with dirs := fs.dirs ++ dirPrefixes d }

/-- Overwrite-or-create a file. -/
def fsWrite (fs : RemoteFS) (path content : String) : RemoteFS :=
  { fs with files := assocSet fs.files path content }

/-- Split a character list at every occurrence of the separator (Python
`str.split` semantics: splitting the empty string yields one empty part). -/
def splitOnCharAux (c : Char) : List Char → List (List Char)
  | [] => [[]]
  | x :: xs =>
    let r := splitOnCharAux c xs
    if x = c then [] :: r
    else
      match r with
      | [] => [[x]]
      | h :: t => (x :: h) :: t

/-- Python `s.split(c)` for a single-character separator. -/
def pySplit (s : String) (c : Char) : List String :=
  (splitOnCharAux c s.toList).map (fun l => String.mk l)

/-- Does the parent directory of this open-for-write target exist?  SFTP
`open(path, "w")` creates or truncates the file but fails with
`No such file` when the parent directory is absent. -/
def fsParentExists (fs : RemoteFS) (remote_dir : String) : Bool :=
  remote_dir == "" || fs.dirs.contains remote_dir

/-- `SSHManager.upload_file` (lines 169-212): unknown connection ids fail
immediately; otherwise the parent-directory creation is attempted inside a
bare `try/except: pass` — the `sftp.makedirs` attribute lookup raises
`AttributeError`, which is swallowed, so no directory is ever created —
and the subsequent `sftp.file(remote_path, "w")` write either fully
succeeds or raises into the outer `except`, which reports the failure. -/
def upload_file (st : ManagerState) (fs : RemoteFS)
    (connection_id file_content remote_path : String) (now : Nat) :
    (Bool × String) × ManagerState × RemoteFS :=
  match assocFind st.connections connection_id with
  | none => ((false, "连接不存在"), st, fs)
  | some entry =>
    -- connection['last_used'] = datetime.now()
    let entry2 : ConnEntry := { entry with last_used := now }
    let st := { st with connections := assocSet st.connections connection_id entry2 }
    -- remote_dir = '/'.join(remote_path.split('/')[:-1])
    let remote_dir := String.intercalate "/" (pySplit remote_path '/').dropLast
    let fs1 :=
      if remote_dir != "" then
        match (sftpGetattr "makedirs").map (fun _ => fsMakedirs fs remote_dir) with
        | .ok fs2 => fs2
        | .error _ => fs   -- except Exception: pass
      else fs
    if fsParentExists fs1 remote_dir then
      ((true, ""), st, fsWrite fs1 remote_path file_content)
    else
      ((false, "文件上传失败: No such file"), st, fs1)

/-! ## The workflow engine (backend/services/workflow_engine.py)

Only the step/action execution pipeline is embedded: `execute_step`,
`_execute_step_actions` and `_execute_action`.  The `user-input` branch of
`_execute_action` (lines 508-515) is concrete; the remaining typed branches
delegate to external collaborators (SSH, the AI service, notifications) and
are abstracted as an oracle returning the success flag and the fields they
write on the action.  `ActionType.VALIDATION` has no branch in the source
dispatch and falls into the `else` arm (lines 545-547). -/

/-- `WorkflowStepStatus` of models.py. -/
inductive WorkflowStepStatus where
  | pending | in_progress | completed | failed | skipped | blocked | requires_input
  deriving DecidableEq, Repr

/-- `ActionType` of models.py. -/
inductive ActionType where
  | user_input | system_auto | ai_generate | command_exec
  | file_operation | api_call | validation | notification
  deriving DecidableEq, Repr

/-- A `step_actions` row, reduced to the columns the execution pipeline
touches. -/
structure StepActionRow where
  actId : Int
  step_id : Int
  action_type : ActionType
  action_name : String
  status : WorkflowStepStatus
  output : PyVal
  error_message : PyVal
  started_at : Option Nat
  completed_at : Option Nat
  duration_seconds : Option Int
  deriving DecidableEq, Repr

/-- A `workflow_steps` row, reduced to the columns the execution pipeline
touches. -/
structure WorkflowStepRow where
  wsId : Int
  session_id : Int
  step_number : Int
  step_name : String
  requires_user_input : Bool
  status : WorkflowStepStatus
  error_message : PyVal
  retry_count : Int
  user_input_data : Option PyDict
  started_at : Option Nat
  completed_at : Option Nat
  duration_seconds : Option Int
  deriving DecidableEq, Repr

/-- A `workflow_sessions` row, reduced to the columns `execute_step`
touches. -/
structure WSessionRow where
  wfId : Int
  task_id : Int
  status : WorkflowStepStatus
  current_step : Int
  total_steps : Int
  progress_percentage : Int
  completed_at : Option Nat
  deriving DecidableEq, Repr

/-- The workflow store. -/
structure WorkflowDb where
  sessions : List WSessionRow
  steps : List WorkflowStepRow
  actions : List StepActionRow
  deriving DecidableEq, Repr

/-- Replace every row matching the predicate (commit of a mutated ORM
object, identified by its primary key). -/
def updateBy {α : Type} (l : List α) (p : α → Bool) (a : α) : List α :=
  l.map (fun x => if p x then a else x)

/-- Commit a mutated step row. -/
def commitStepRow (db : WorkflowDb) (s : WorkflowStepRow) : WorkflowDb :=
  { db with steps := updateBy db.steps (fun r => r.wsId == s.wsId) s }

/-- Commit a mutated action row. -/
def commitActionRow (db : WorkflowDb) (a : StepActionRow) : WorkflowDb :=
  { db with actions := updateBy db.actions (fun r => r.actId == a.actId) a }

/-- Commit a mutated session row. -/
def commitWSessionRow (db : WorkflowDb) (s : WSessionRow) : WorkflowDb :=
  { db with sessions := updateBy db.sessions (fun r => r.wfId == s.wfId) s }

/-- Stand-in for `json.dumps` on the modelled dicts; the claims below never
inspect the serialized text. -/
def jsonDumps (d : PyDict) : String :=
  String.intercalate "," (dictKeys d)

/-- The outcome of the delegate branches of `_execute_action` (system-auto,
AI-generate, command-exec, file-operation, API-call, notification), which
call external collaborators: the success flag and the action fields they
wrote. -/
structure WfCollab where
  delegate : ActionType → StepActionRow → Bool × StepActionRow

/-- `WorkflowEngine._execute_action` (lines 495-552): the `user-input`
branch succeeds exactly when the caller supplied truthy input data for this
invocation (recording it as output) and otherwise fails with the error
message 需要用户输入; every other known type delegates to its collaborator;
`validation` has no branch and lands in the unknown-type `else`. -/
def execute_action_wf (wf : WfCollab) (action : StepActionRow)
    (user_input : Option PyDict) : Bool × StepActionRow :=
  match action.action_type with
  | .user_input =>
    if optDictTruthy user_input then
      (true, { action with output := .vStr (jsonDumps (user_input.getD [])) })
    else
      (false, { action with error_message := .vStr "需要用户输入" })
  | .validation =>
    (false, { action with error_message := .vStr "未知的操作类型: ActionType.VALIDATION" })
  | t => wf.delegate t action

/-- The action loop of `WorkflowEngine._execute_step_actions`
(lines 457-493): each action is marked in-progress and executed; a success
is committed as completed; the first failure is committed as failed, copies
its error message onto the step, and aborts the loop. -/
def execute_actions_loop (wf : WfCollab) (now : Nat) :
    WorkflowDb → WorkflowStepRow → Option PyDict → List StepActionRow →
    Bool × WorkflowStepRow × WorkflowDb
  | db, step, _, [] => (true, step, db)
  | db, step, user_input, a :: rest =>
    let a1 : StepActionRow := { a with status := .in_progress, started_at := some now }
    let db1 := commitActionRow db a1
    let r := execute_action_wf wf a1 user_input
    if r.1 then
      let a3 : StepActionRow := { r.2 with status := .completed, completed_at := some now,
                                           duration_seconds := some 0 }
      execute_actions_loop wf now (commitActionRow db1 a3) step user_input rest
    else
      let a3 : StepActionRow := { r.2 with status := .failed }
      let step2 : WorkflowStepRow := { step with error_message := r.2.error_message }
      (false, step2, commitStepRow (commitActionRow db1 a3) step2)

/-- `WorkflowEngine._execute_step_actions` on the actions owned by the step
(queried by `step_id`, in store order). -/
def execute_step_actions_wf (wf : WfCollab) (db : WorkflowDb)
    (step : WorkflowStepRow) (user_input : Option PyDict) (now : Nat) :
    Bool × WorkflowStepRow × WorkflowDb :=
  execute_actions_loop wf now db step user_input
    (db.actions.filter (fun a => a.step_id == step.wsId))

/-- The success continuation of `execute_step` (lines 415-442): complete the
step, advance the session pointer and progress, unblock the next step or
complete the session. -/
def execute_step_wf_success (db : WorkflowDb) (session : WSessionRow)
    (step : WorkflowStepRow) (step_number : Int) (now : Nat) :
    (Bool × String) × WorkflowDb :=
  let step2 : WorkflowStepRow := { step with status := .completed, completed_at := some now,
                                             duration_seconds := some 0 }
  let session2 : WSessionRow := { session with
    current_step := step_number + 1,
    progress_percentage := step_number * 100 / session.total_steps }
  if step_number < session.total_steps then
    let db2 := commitStepRow db step2
    let db3 := commitWSessionRow db2 session2
    match db3.steps.find? (fun s =>
        s.session_id == step.session_id && s.step_number == step_number + 1) with
    | some next_step =>
      ((true, ""), commitStepRow db3 ({ next_step with status := .pending }))
    | none => ((true, ""), db3)
  else
    let session3 : WSessionRow := { session2 with status := .completed, completed_at := some now }
    ((true, ""), commitWSessionRow (commitStepRow db step2) session3)

/-- `WorkflowEngine.execute_step` (lines 369-455): look up the session and
the step, require status `PENDING` or `REQUIRES_INPUT`, mark the step
in-progress (recording supplied input data), run its actions, and commit
the outcome — `COMPLETED` with session advance on success, `FAILED` with an
incremented retry count and the generic `(False, message)` pair on
failure. -/
def execute_step_wf (wf : WfCollab) (db : WorkflowDb)
    (session_id step_number : Int) (user_input : Option PyDict) (now : Nat) :
    (Bool × String) × WorkflowDb :=
  match db.sessions.find? (fun s => s.wfId == session_id) with
  | none => ((false, "工作流程会话不存在"), db)
  | some session =>
    match db.steps.find? (fun s =>
        s.session_id == session_id && s.step_number == step_number) with
    | none => ((false, "步骤 " ++ toString step_number ++ " 不存在"), db)
    | some step =>
      if !(step.status == .pending || step.status == .requires_input) then
        ((false, "步骤 " ++ toString step_number ++ " 当前状态不允许执行"), db)
      else
        let step1 : WorkflowStepRow := { step with
          status := .in_progress, started_at := some now,
          user_input_data :=
            if optDictTruthy user_input then user_input else step.user_input_data }
        let db1 := commitStepRow db step1
        let r := execute_step_actions_wf wf db1 step1 user_input now
        if r.1 then
          execute_step_wf_success r.2.2 session r.2.1 step_number now
        else
          let step3 : WorkflowStepRow := { r.2.1 with status := .failed,
                                                      retry_count := r.2.1.retry_count + 1 }
          let db3 := commitStepRow r.2.2 step3
          let msg := if truthy step3.error_message then pyStr step3.error_message
                     else "步骤执行失败"
          ((false, msg), db3)

/-- Status of the step row with this id, after an execution. -/
def stepStatusIn (db : WorkflowDb) (wsId : Int) : Option WorkflowStepStatus :=
  (db.steps.find? (fun s => s.wsId == wsId)).map (fun s => s.status)

/-- Status of the action row with this id, after an execution. -/
def actionStatusIn (db : WorkflowDb) (actId : Int) : Option WorkflowStepStatus :=
  (db.actions.find? (fun a => a.actId == actId)).map (fun a => a.status)

/-- Status of a step of an in-memory session, after an execution. -/
def stepStatusMem (self : GuidedDeploymentService) (task_id stepId : Int) : Option String :=
  match assocFind self.sessions task_id with
  | none => none
  | some session => (session.steps.find? (fun s => s.memId == stepId)).map (fun s => s.status)

/-! ## Concrete fixtures for the witnesses and counterexamples -/

/-- A remote world whose file upload fails but whose command execution
succeeds. -/
def remoteUpFail : Remote :=
  { uploadResult := fun _ _ _ => (false, "上传失败"),
    execResult := fun _ _ => (true, "uploaded-anyway", "") }

/-- An in-memory step carrying a file payload and a command. -/
def stepUpFail : MemStep :=
  { memId := 1, step_number := .vInt 1, step_name := .vStr "写入文件",
    step_description := .vNone, command := .vStr "echo done",
    expected_output := .vNone, actual_output := .vNone, status := "pending",
    error_message := .vNone, file_path := .vStr "/srv/app/main.py",
    file_content := .vStr "print(1)", completed_at := .vNone,
    created_at := "2024-01-01T00:00:00" }

/-- An in-memory session for task 3 holding `stepUpFail`. -/
def sessUpFail : MemSession :=
  { memId := 3, task_id := 3, user_id := 5, server_host := .vStr "h",
    server_port := .vInt 22, server_username := .vStr "u",
    connection_status := "connected", current_step := 1,
    deployment_path := .vNone, git_repo_url := .vNone,
    steps := [stepUpFail], connection_id := some "u@h:22" }

/-- The service state holding `sessUpFail`. -/
def svcUpFail : GuidedDeploymentService := ⟨[(3, sessUpFail)]⟩

/-- A service state whose task-1 session is in `connected` state. -/
def svcActive : GuidedDeploymentService :=
  ⟨[(1, { memId := 1, task_id := 1, user_id := 5, server_host := .vStr "h",
          server_port := .vInt 22, server_username := .vStr "u",
          connection_status := "connected", current_step := 1,
          deployment_path := .vNone, git_repo_url := .vNone,
          steps := [], connection_id := none })]⟩

/-- An SSH world where connecting always succeeds and the liveness test is
clean. -/
def worldOk : SSHWorld :=
  { connectResult := fun _ _ _ => none, testErr := fun _ _ _ => "",
    keyParse := fun _ => none }

/-- The empty SSH-manager state. -/
def mgr0 : ManagerState := ⟨[], [], 0⟩

/-- The manager state after a first successful connect of `user@host:22`. -/
def mgr1 : ManagerState :=
  (create_connection_sync worldOk mgr0 "host" 22 "user" (some "pw") none none 1).2

/-- The manager state after a second successful connect of the same key. -/
def mgr2 : ManagerState :=
  (create_connection_sync worldOk mgr1 "host" 22 "user" (some "pw") none none 2).2

/-- A manager state with one registered connection, for the upload claim. -/
def mgrUp : ManagerState :=
  { connections := [("user@host:22", ⟨0, "host", 22, "user", 0, 0⟩)],
    clients := [(0, true)], nextClient := 1 }

/-- An empty remote filesystem: no directories, no files. -/
def fsEmpty : RemoteFS := ⟨[], []⟩

/-- A collaborator whose delegate branches always succeed (irrelevant to the
user-input claims). -/
def wfOk : WfCollab := ⟨fun _ a => (true, a)⟩

/-- A pending user-input action. -/
def actUI : StepActionRow :=
  { actId := 100, step_id := 10, action_type := .user_input,
    action_name := "收集需求信息", status := .pending, output := .vNone,
    error_message := .vNone, started_at := none, completed_at := none,
    duration_seconds := none }

/-- The pending step owning `actUI`. -/
def stepUI : WorkflowStepRow :=
  { wsId := 10, session_id := 1, step_number := 1, step_name := "需求分析",
    requires_user_input := true, status := .pending, error_message := .vNone,
    retry_count := 0, user_input_data := none, started_at := none,
    completed_at := none, duration_seconds := none }

/-- The workflow session owning `stepUI`. -/
def sessUI : WSessionRow :=
  { wfId := 1, task_id := 9, status := .pending, current_step := 1,
    total_steps := 15, progress_percentage := 0, completed_at := none }

/-- The workflow store for the user-input claims. -/
def dbUI : WorkflowDb := ⟨[sessUI], [stepUI], [actUI]⟩

/-- A remote world whose uploads succeed and whose command exits non-zero. -/
def remoteCmdFail : Remote :=
  { uploadResult := fun _ _ _ => (true, ""),
    execResult := fun _ _ => (false, "partial-out", "command failed") }

/-- A connected session with a pending step whose command is `false`. -/
def stCmdFail : DeployState :=
  { session := { rowId := 1, task_id := 2, user_id := 3, server_host := "h",
                 server_port := 22, server_username := "u",
                 connection_status := .connected, current_step := 1,
                 deployment_path := "/opt", git_repo_url := "" },
    step := { rowId := 4, session_id := 1, step_number := .vInt 32,
              step_name := .vStr "启动服务", step_description := .vNone,
              command := .vStr "false", expected_output := .vNone,
              file_path := .vNone, file_content := .vNone,
              actual_output := .vNone, status := .pending,
              error_message := .vNone, completed_at := none } }

/-! ## Helper lemmas -/

/-- Looking a key up right after setting it yields the new value. -/
theorem assocFind_assocSet {α : Type} [BEq α] [LawfulBEq α] {β : Type}
    (l : List (α × β)) (k : α) (v : β) : assocFind (assocSet l k v) k = some v := by
  induction l with
  | nil => simp [assocSet, assocFind]
  | cons e rest ih =>
    by_cases h : e.1 == k
    · simp [assocSet, assocFind, h]
    · simp only [assocSet, h]
      simpa [assocFind, h] using ih

/-- Setting a key that is already present does not grow the dict. -/
theorem assocSet_length_of_find {α : Type} [BEq α] {β : Type}
    (l : List (α × β)) (k : α) (v v0 : β) (h : assocFind l k = some v0) :
    (assocSet l k v).length = l.length := by
  induction l with
  | nil => simp [assocFind] at h
  | cons e rest ih =>
    by_cases he : e.1 == k
    · simp [assocSet, he]
    · simp only [assocFind, he] at h
      simp [assocSet, he, ih h]

/-- Replacing the found row by id leaves the new row as the found one. -/
theorem find_updateBy {α : Type} (l : List α) (p : α → Bool) (a x : α)
    (hl : l.find? p = some x) (ha : p a = true) :
    (updateBy l p a).find? p = some a := by
  induction l with
  | nil => simp at hl
  | cons y ys ih =>
    by_cases hy : p y = true
    · simp [updateBy, List.find?, hy, ha]
    · simp only [List.find?_cons, hy] at hl
      simp only [updateBy, List.map, if_neg hy, List.find?_cons] at *
      simp only [Bool.not_eq_true] at hy
      simp [hy, ih hl]

/-! ## Claim theorems -/

/-- Claim C9 (confirmed): for every input, the generated plan's
`step_number` column, read off in order, is exactly
`1, 2, …, N` for `N` the plan's length — contiguous from 1, no duplicates,
no gaps. -/
theorem step_numbers_contiguous (self : GuidedDeploymentService) (t : Task)
    (p g : String) :
    (generate_deployment_steps self t p g).map (fun d => dictFind d "step_number")
      = (List.range (generate_deployment_steps self t p g).length).map
          (fun i => some (PyVal.vInt ((i : Int) + 1))) := rfl

/-- Claim C10 (confirmed): `generate_deployment_steps` reads no service
state — its output depends only on the explicit `(task, deployment_path,
git_repo_url)` arguments — and returns without modifying anything, so two
calls with identical inputs (under any interleaved state change) yield
identical plans. -/
theorem generate_steps_deterministic (s1 s2 : GuidedDeploymentService)
    (t : Task) (p g : String) :
    generate_deployment_steps s1 t p g = generate_deployment_steps s2 t p g := rfl

/-- Claim C1, counterexample: for a concrete bundle of 3 source files, the
generated plan does not contain 3 file-write steps: it contains none at all
(no step of the fixed 37-step guide carries a file payload), refuting
"exactly one file-write step per source file in the bundle". -/
theorem plan_ignores_bundle_counterexample :
    ([("app/models/book.py", "class Book"), ("app/schemas/book.py", "class BookCreate"),
      ("app/services/book.py", "class BookService")] : List (String × String)).length = 3 ∧
    fileWriteStepCount (generate_deployment_steps ⟨[]⟩ ⟨7, "code"⟩
      "/opt/api/ai_interface_project" "") = 0 ∧
    fileWriteStepCount (generate_deployment_steps ⟨[]⟩ ⟨7, "code"⟩
        "/opt/api/ai_interface_project" "")
      ≠ ([("app/models/book.py", "class Book"), ("app/schemas/book.py", "class BookCreate"),
          ("app/services/book.py", "class BookService")] : List (String × String)).length := by
  decide

/-- Claim C1, amended: the Step Plan Generator ignores the code bundle
entirely — the plan is the fixed 37-step guide, identical for every task
and bundle, and contains no file-write steps (files are written manually
through the editor steps of the guide). -/
theorem plan_is_fixed_template (s : GuidedDeploymentService) (t : Task)
    (p g : String) :
    (generate_deployment_steps s t p g).length = 37 ∧
    fileWriteStepCount (generate_deployment_steps s t p g) = 0 ∧
    generate_deployment_steps s t p g = generate_deployment_steps ⟨[]⟩ ⟨0, ""⟩ p g :=
  ⟨rfl, rfl, rfl⟩

/-- Claim C3 (confirmed): every dict of the generated plan carries only the
keys `step_number`, `step_name` and `command`, so the subscript
`step_data['step_description']` in `initialize_deployment_steps` raises
`KeyError` on the very first iteration; the exception is caught, the
transaction rolled back, and the call returns `False` with no step row
persisted, for every database state, session and task. -/
theorem init_steps_always_fails_and_persists_nothing
    (self : GuidedDeploymentService) (db : DepDb) (session : DSessionRow)
    (task : Task) :
    (init_deployment_steps self db session task).1 = false ∧
    (init_deployment_steps self db session task).2.steps = db.steps ∧
    (init_deployment_steps self db session task).2.sessions = db.sessions ∧
    ∀ d ∈ generate_deployment_steps self task session.deployment_path session.git_repo_url,
      dictKeys d = ["step_number", "step_name", "command"] := by
  refine ⟨rfl, rfl, rfl, ?_⟩
  intro d hd
  fin_cases hd <;> rfl

/-- The try-block of the effective `create_deployment_session` fails on
every input: the `"steps"` comprehension subscripts `step_description`,
which no generator dict defines, so at best a `KeyError` is raised there
(earlier subscripts of `server_config` may raise first). -/
theorem createMemBody_fails (self : GuidedDeploymentService)
    (task_id user_id : Int) (sc : PyDict) (gc : String) :
    (createMemBody self task_id user_id sc gc).toOption = none := by
  unfold createMemBody
  cases pyGet sc "username" with
  | error e => rfl
  | ok uname =>
    cases pyGet sc "host" with
    | error e => rfl
    | ok host =>
      cases pyGet sc "username" with
      | error e => rfl
      | ok uname2 => rfl

/-- Claim C7 (confirmed): creating a deployment session for a task that
already has a non-disconnected session fails and creates no second session.
In the source this holds degenerately: the effective
`create_deployment_session` (the second definition, which shadows the
database-backed first one carrying the existing-session guard) raises
before storing anything, on every input, so the call fails and the session
store is left exactly as it was. -/
theorem create_session_fails_no_second_session
    (self : GuidedDeploymentService) (task_id user_id : Int)
    (server_config : PyDict) (generated_code : String)
    (hactive : hasActiveSession self task_id = true) :
    (create_deployment_session_mem self task_id user_id server_config
        generated_code).1.toOption = none ∧
    (create_deployment_session_mem self task_id user_id server_config
        generated_code).2 = self := by
  have h := createMemBody_fails self task_id user_id server_config generated_code
  unfold create_deployment_session_mem
  cases hb : createMemBody self task_id user_id server_config generated_code with
  | ok r => rw [hb] at h; simp [Except.toOption] at h
  | error e => exact ⟨rfl, rfl⟩

/-- Witness for claim C7 at a concrete state: task 1 already holds a
`connected` session, and the create call fails without touching the
store. -/
theorem create_session_fails_no_second_session_witness :
    (create_deployment_session_mem svcActive 1 5
        [("host", .vStr "h"), ("username", .vStr "u")] "code").1.toOption = none ∧
    (create_deployment_session_mem svcActive 1 5
        [("host", .vStr "h"), ("username", .vStr "u")] "code").2 = svcActive :=
  create_session_fails_no_second_session svcActive 1 5
    [("host", .vStr "h"), ("username", .vStr "u")] "code" (by decide)

/-- Claim C2 (code bug), evaluated at the failing input: on the in-memory
path, for a step carrying a file payload whose upload fails, `execute_step`
does not short-circuit — the returned `(success, error)` pair is bound
whole to `success` and a 2-tuple is always truthy — so the step's command
is executed anyway, the call reports success, and the step ends
`completed`, contradicting the claimed failed-with-upload-error outcome. -/
theorem mem_upload_failure_not_short_circuited :
    (remoteUpFail.uploadResult "u@h:22" "print(1)" "/srv/app/main.py").1 = false ∧
    (execute_step_mem remoteUpFail svcUpFail 3 1 "u@h:22").2.2
      = [RemoteEvent.upload "u@h:22" "print(1)" "/srv/app/main.py",
         RemoteEvent.exec "u@h:22" "echo done"] ∧
    dictFind (execute_step_mem remoteUpFail svcUpFail 3 1 "u@h:22").1 "success"
      = some (.vBool true) ∧
    stepStatusMem (execute_step_mem remoteUpFail svcUpFail 3 1 "u@h:22").2.1 3 1
      = some "completed" := by
  decide

/-- Claim C5 (code bug), evaluated at the failing input: uploading to
`app/models/book.py` over a registered connection while the parent
directory is absent fails and creates nothing — `sftp.makedirs` does not
exist on paramiko's `SFTPClient`, the swallowed `AttributeError` means no
directory is created, and the subsequent open-for-write raises — refuting
the claimed create-parents-then-succeed behaviour. -/
theorem upload_missing_parent_fails :
    (sftpGetattr "makedirs").toOption = none ∧
    (upload_file mgrUp fsEmpty "user@host:22" "print(1)" "app/models/book.py" 5).1.1
      = false ∧
    (upload_file mgrUp fsEmpty "user@host:22" "print(1)" "app/models/book.py" 5).2.2
      = fsEmpty := by
  decide

/-- Claim C4, counterexample: after two successful connects of
`user@host:22`, the registry entry holds the second transport (handle 1),
but the first transport (handle 0) is still open — the prior transport is
not closed on replacement, refuting "closes the prior transport before (or
upon) replacement … no handle is leaked". -/
theorem reconnect_leaves_prior_transport_open_counterexample :
    (create_connection_sync worldOk mgr0 "host" 22 "user" (some "pw") none none 1).1.1
      = true ∧
    (create_connection_sync worldOk mgr1 "host" 22 "user" (some "pw") none none 2).1.1
      = true ∧
    (assocFind mgr2.connections "user@host:22").map (fun e => e.client) = some 1 ∧
    clientOpen mgr2 0 = some true ∧
    clientOpen mgr2 0 ≠ some false := by
  decide

/-- Claim C4, amended: a second successful connect for the same
`(username, host, port)` key replaces the registry entry — the registry
still maps the connection id to a single entry, now holding the fresh
transport — but the prior transport is not closed: its handle stays open
(leaked) outside the registry. -/
theorem reconnect_replaces_entry_without_closing
    (w : SSHWorld) (st : ManagerState) (host : String) (port : Nat)
    (username : String) (pw : String) (n1 n2 : Nat)
    (hpw : pw ≠ "")
    (hc : w.connectResult host port username = none)
    (ht : w.testErr host port username = "") :
    (create_connection_sync w st host port username (some pw) none none n1).1.1
      = true ∧
    (create_connection_sync w
        (create_connection_sync w st host port username (some pw) none none n1).2
        host port username (some pw) none none n2).1.1 = true ∧
    assocFind (create_connection_sync w
        (create_connection_sync w st host port username (some pw) none none n1).2
        host port username (some pw) none none n2).2.connections
        (generate_connection_id host port username)
      = some ⟨st.nextClient + 1, host, port, username, n2, n2⟩ ∧
    (create_connection_sync w
        (create_connection_sync w st host port username (some pw) none none n1).2
        host port username (some pw) none none n2).2.connections.length
      = (create_connection_sync w st host port username
          (some pw) none none n1).2.connections.length ∧
    clientOpen (create_connection_sync w
        (create_connection_sync w st host port username (some pw) none none n1).2
        host port username (some pw) none none n2).2 st.nextClient = some true := by
  have hpw2 : (pw != "") = true := by simpa using hpw
  have ht2 : (w.testErr host port username != "") = false := by simp [ht]
  simp only [create_connection_sync, optStrTruthy, hpw2, hc, ht2, if_true,
    Bool.false_eq_true, if_false]
  refine ⟨trivial, trivial, ?_, ?_, ?_⟩
  · exact assocFind_assocSet _ _ _
  · exact assocSet_length_of_find _ _ _ _ (assocFind_assocSet _ _ _)
  · simp [clientOpen, assocFind]

/-- Witness for claim C4 at concrete inputs. -/
theorem reconnect_replaces_entry_without_closing_witness :
    (create_connection_sync worldOk mgr0 "host" 22 "user" (some "pw") none none 1).1.1
      = true ∧
    (create_connection_sync worldOk
        (create_connection_sync worldOk mgr0 "host" 22 "user" (some "pw") none none 1).2
        "host" 22 "user" (some "pw") none none 2).1.1 = true ∧
    assocFind (create_connection_sync worldOk
        (create_connection_sync worldOk mgr0 "host" 22 "user" (some "pw") none none 1).2
        "host" 22 "user" (some "pw") none none 2).2.connections
        (generate_connection_id "host" 22 "user")
      = some ⟨mgr0.nextClient + 1, "host", 22, "user", 2, 2⟩ ∧
    (create_connection_sync worldOk
        (create_connection_sync worldOk mgr0 "host" 22 "user" (some "pw") none none 1).2
        "host" 22 "user" (some "pw") none none 2).2.connections.length
      = (create_connection_sync worldOk mgr0 "host" 22 "user"
          (some "pw") none none 1).2.connections.length ∧
    clientOpen (create_connection_sync worldOk
        (create_connection_sync worldOk mgr0 "host" 22 "user" (some "pw") none none 1).2
        "host" 22 "user" (some "pw") none none 2).2 mgr0.nextClient = some true :=
  reconnect_replaces_entry_without_closing worldOk mgr0 "host" 22 "user" "pw" 1 2
    (by decide) rfl rfl

/-- Claim C8 (confirmed): when the upload phase passes (no truthy file
payload, or a successful upload) and the step's command exits non-zero, the
database-backed driver returns `(False, stdout, stderr)` without raising,
marks the step `failed` with the captured stderr as its error message and
the captured stdout as its actual output, and leaves the owning session row
— in particular its `connected` status — untouched. -/
theorem command_failure_records_stderr_session_unchanged
    (remote : Remote) (st : DeployState) (cid : String) (now : Nat)
    (hconn : st.session.connection_status = .connected)
    (hup : (truthy st.step.file_content && truthy st.step.file_path) = false ∨
      (remote.uploadResult cid (pyStr st.step.file_content)
        (pyStr st.step.file_path)).1 = true)
    (hcmd : truthy st.step.command = true)
    (hfail : (remote.execResult cid (pyStr st.step.command)).1 = false) :
    (execute_deployment_step_st remote st cid now).1.1 = false ∧
    (execute_deployment_step_st remote st cid now).2.1.step.status = .failed ∧
    (execute_deployment_step_st remote st cid now).2.1.step.error_message
      = .vStr (remote.execResult cid (pyStr st.step.command)).2.2 ∧
    (execute_deployment_step_st remote st cid now).2.1.step.actual_output
      = .vStr (remote.execResult cid (pyStr st.step.command)).2.1 ∧
    (execute_deployment_step_st remote st cid now).2.1.session = st.session ∧
    (execute_deployment_step_st remote st cid now).2.1.session.connection_status
      = .connected := by
  rcases hup with hup | hup
  · simp [execute_deployment_step_st, execute_deployment_step,
      execute_deployment_step_cmd, hup, hcmd, hfail, hconn]
  · by_cases h2 : truthy st.step.file_content = true ∧ truthy st.step.file_path = true
    · simp [execute_deployment_step_st, execute_deployment_step,
        execute_deployment_step_cmd, hup, hcmd, hfail, hconn, h2]
    · simp [execute_deployment_step_st, execute_deployment_step,
        execute_deployment_step_cmd, hup, hcmd, hfail, hconn, h2]

/-- Witness for claim C8: a `false` command (guaranteed non-zero exit) on a
connected session ends the step `failed` with the stderr recorded, and the
session row is unchanged. -/
theorem command_failure_records_stderr_session_unchanged_witness :
    (execute_deployment_step_st remoteCmdFail stCmdFail "u@h:22" 7).1.1 = false ∧
    (execute_deployment_step_st remoteCmdFail stCmdFail "u@h:22" 7).2.1.step.status
      = .failed ∧
    (execute_deployment_step_st remoteCmdFail stCmdFail "u@h:22" 7).2.1.step.error_message
      = .vStr (remoteCmdFail.execResult "u@h:22" (pyStr stCmdFail.step.command)).2.2 ∧
    (execute_deployment_step_st remoteCmdFail stCmdFail "u@h:22" 7).2.1.step.actual_output
      = .vStr (remoteCmdFail.execResult "u@h:22" (pyStr stCmdFail.step.command)).2.1 ∧
    (execute_deployment_step_st remoteCmdFail stCmdFail "u@h:22" 7).2.1.session
      = stCmdFail.session ∧
    (execute_deployment_step_st remoteCmdFail stCmdFail "u@h:22" 7).2.1.session.connection_status
      = .connected :=
  command_failure_records_stderr_session_unchanged remoteCmdFail stCmdFail "u@h:22" 7
    rfl (Or.inl rfl) rfl rfl

/-- Claim C6, counterexample: executing a step containing a user-input
action with no supplied input data ends with the step and the action marked
`failed` — not `requires_input` — and the caller receives only the generic
`(False, message)` pair, refuting "fails with the distinct RequiresInput
status". -/
theorem user_input_marked_generic_failed_counterexample :
    (execute_step_wf wfOk dbUI 1 1 none 0).1 = (false, "需要用户输入") ∧
    stepStatusIn (execute_step_wf wfOk dbUI 1 1 none 0).2 10 = some .failed ∧
    actionStatusIn (execute_step_wf wfOk dbUI 1 1 none 0).2 100 = some .failed ∧
    stepStatusIn (execute_step_wf wfOk dbUI 1 1 none 0).2 10 ≠ some .requires_input ∧
    actionStatusIn (execute_step_wf wfOk dbUI 1 1 none 0).2 100 ≠ some .requires_input := by
  decide

/-- Claim C6, amended: executing a workflow step whose first action is a
user-input action, without supplied input data, marks the action and the
step as generically `failed` (error message 需要用户输入, retry count
incremented) and returns the plain `(False, 需要用户输入)` pair; the engine
never assigns the distinct `requires_input` status. -/
theorem user_input_missing_fails_generically
    (wf : WfCollab) (db : WorkflowDb) (session_id step_number : Int) (now : Nat)
    (sess : WSessionRow) (step : WorkflowStepRow) (act : StepActionRow)
    (rest : List StepActionRow)
    (hsess : db.sessions.find? (fun s => s.wfId == session_id) = some sess)
    (hstep : db.steps.find? (fun s =>
      s.session_id == session_id && s.step_number == step_number) = some step)
    (hid : db.steps.find? (fun r => r.wsId == step.wsId) = some step)
    (hstat : step.status = .pending)
    (hacts : db.actions.filter (fun a => a.step_id == step.wsId) = act :: rest)
    (htype : act.action_type = .user_input) :
    (execute_step_wf wf db session_id step_number none now).1
      = (false, "需要用户输入") ∧
    stepStatusIn (execute_step_wf wf db session_id step_number none now).2 step.wsId
      = some .failed := by
  have hne : (WorkflowStepStatus.pending == WorkflowStepStatus.requires_input) = false := by
    decide
  simp [execute_step_wf, hsess, hstep, hstat, execute_step_actions_wf,
    commitStepRow, commitActionRow, execute_actions_loop, execute_action_wf,
    htype, optDictTruthy, hacts, hne, truthy, pyStr, stepStatusIn]
  exact ⟨_, find_updateBy _ _ _ _
    (find_updateBy _ _ _ _ (find_updateBy _ _ _ _ hid (by simp)) (by simp))
    (by simp), rfl⟩

/-- Witness for claim C6 at the concrete store `dbUI`. -/
theorem user_input_missing_fails_generically_witness :
    (execute_step_wf wfOk dbUI 1 1 none 0).1 = (false, "需要用户输入") ∧
    stepStatusIn (execute_step_wf wfOk dbUI 1 1 none 0).2 10 = some .failed :=
  user_input_missing_fails_generically wfOk dbUI 1 1 0 sessUI stepUI actUI []
    rfl rfl rfl rfl rfl rfl

end C2API
